import Mathlib

/-!
Shallow embedding of the authentication controller of the Wildway backend
(`src/server/controllers/authController.js`) and the parts of its collaborators
(user model, credential store, error pipeline) that the controller relies on.
Pure functions of the source become Lean functions; the document store becomes
an explicit `Store` value threaded through the stateful flows; JavaScript
`undefined` becomes `Option`; fallible flows return `Except AppError`.
-/

namespace Wildway

/-- `AppError(message, statusCode)` from `utils/appError`: an error object
carrying a user-safe message and an HTTP status code. -/
structure AppError where
  message : String
  statusCode : Nat
  deriving Repr, DecidableEq

/-- A persisted user document. `password` is the stored hash; it is `none` on
documents loaded without the normally-excluded password field, and on
serialized responses after stripping. -/
structure User where
  id : Nat
  name : String
  email : String
  role : String
  password : Option String
  passwordChangedAt : Option Nat
  passwordResetToken : Option String
  passwordResetExpires : Option Nat
  deriving Repr, DecidableEq

/-- A decoded session token: `jwt.sign({ id }, secret)` embeds the user id and
an issued-at timestamp. -/
structure Token where
  id : Nat
  iat : Nat
  deriving Repr, DecidableEq

/-- The ways `jwt.verify` can reject a token string. -/
inductive JwtError where
  | malformed
  | badSignature
  | expired
  deriving Repr, DecidableEq

/-- The credential store: the collection of user documents. -/
structure Store where
  users : List User
  deriving Repr, DecidableEq

/-- An incoming request body. JavaScript request bodies are open objects, so
every field any auth flow reads is optional here; absent means `undefined`. -/
structure AuthBody where
  name : Option String
  email : Option String
  password : Option String
  confirmPassword : Option String
  passwordConfirm : Option String
  passwordCurrent : Option String
  role : Option String
  deriving Repr, DecidableEq

/-- The value stored in the `jwt` cookie: either a signed session token or a
literal string such as the logout sentinel. -/
inductive CookieValue where
  | jwtToken (t : Token)
  | raw (s : String)
  deriving Repr, DecidableEq

/-- The observable output of `createSendToken`: the cookie written (value and
expiry) and the JSON response (status code, status string, token, user). -/
structure SendTokenOut where
  cookie : CookieValue × Nat
  statusCode : Nat
  status : String
  token : Token
  user : User
  deriving Repr, DecidableEq

/-- A plain success response carrying a status code and a message. -/
structure OkResponse where
  statusCode : Nat
  message : String
  deriving Repr, DecidableEq

/-- The response of `getCurrentUser`: 200 plus the serialized request user. -/
structure UserResponse where
  statusCode : Nat
  status : String
  user : User
  deriving Repr, DecidableEq

/-- JavaScript truthiness for an optional string: `undefined` and the empty
string are both falsy (`if (!email)`, `else if (req.cookies.jwt)`, the
`if (!token)` guard in `protect`). -/
def truthyStr : Option String → Option String
  | some s => if s = "" then none else some s
  | none => none

/-- Strip the hashed password from a user document, as `select: false` on the
password field does on every read that does not opt back in. -/
def stripPassword (u : User) : User :=
  { u with password := none }

/-- Modelled from the spec: the user model (not under src/) marks the hashed
password `select: false`, so the "hashed secret field (normally excluded from
reads)" is absent from a plain `findById`. -/
def findById (db : Store) (i : Nat) : Option User :=
  (db.users.find? (fun u => u.id == i)).map stripPassword

/-- `User.findById(id).select("+password")`: the read that opts back into the
hashed password field. -/
def findByIdWithPassword (db : Store) (i : Nat) : Option User :=
  db.users.find? (fun u => u.id == i)

/-- `User.findOne({ email })`, password excluded by default. -/
def findByEmail (db : Store) (e : String) : Option User :=
  (db.users.find? (fun u => u.email == e)).map stripPassword

/-- `User.findOne({ email }).select("+password")` as used by `login`. -/
def findByEmailWithPassword (db : Store) (e : String) : Option User :=
  db.users.find? (fun u => u.email == e)

/-- The document filter of `User.findOne({ passwordResetToken: hashedToken,
passwordResetExpires: { $gt: Date.now() } })`: the stored hashed reset token
matches and the expiry is strictly in the future. -/
def resetTokenPred (hashed : String) (now : Nat) (u : User) : Bool :=
  decide (u.passwordResetToken = some hashed) &&
    (match u.passwordResetExpires with
     | some e => decide (now < e)
     | none => false)

/-- The reset-token lookup used by `resetPassword`. -/
def findByResetToken (db : Store) (hashed : String) (now : Nat) : Option User :=
  (db.users.find? (resetTokenPred hashed now)).map stripPassword

/-- Modelled from the spec: persisting a saved document (the user model's save
machinery is not under src/). Saving a document that was loaded without its
excluded password field does not clear the stored hash, so a `none` password on
the saved document keeps the persisted one. -/
def storeUpdate (db : Store) (u : User) : Store :=
  ⟨db.users.map (fun v =>
    if v.id == u.id then
      { u with password := match u.password with
                           | some p => some p
                           | none => v.password }
    else v)⟩

/-- `signToken(id)`: issue a session token embedding the user id and the
current time as its issued-at timestamp. -/
def signToken (i : Nat) (now : Nat) : Token :=
  ⟨i, now⟩

/-- `createSendToken(user, statusCode, res)`: sign a token, set the `jwt`
cookie (expiry `now + JWT_COOKIE_EXPIRES_IN` days), strip the password from the
user (`user.password = undefined`), and respond with status, token and user. -/
def createSendToken (user : User) (statusCode : Nat) (now cookieDays : Nat) :
    SendTokenOut :=
  let token := signToken user.id now
  { cookie := (CookieValue.jwtToken token, now + cookieDays * 24 * 60 * 60 * 1000),
    statusCode := statusCode,
    status := "success",
    token := token,
    user := { user with password := none } }

/-- Modelled from the spec: `user.correctPassword(candidate, stored)` of the
user model (not under src/) compares the submitted password against the stored
hash; `hash` abstracts the one-way password hash. -/
def correctPassword (hash : String → String) (candidate : String)
    (stored : Option String) : Bool :=
  match stored with
  | some s => hash candidate == s
  | none => false

/-- Modelled from the spec: `User.create` of the credential store (user model
not under src/) validates the required fields and that "confirmation must
match", hashes the password, and assigns the default role `user` with no
`passwordChangedAt` ("absent for brand-new accounts"). -/
def userCreate (hash : String → String) (uid : Nat)
    (name email password confirmPassword : Option String) :
    Except AppError User :=
  match name, email, password, confirmPassword with
  | some n, some e, some p, some c =>
    if c = p then
      .ok { id := uid, name := n, email := e, role := "user",
            password := some (hash p), passwordChangedAt := none,
            passwordResetToken := none, passwordResetExpires := none }
    else .error ⟨"Passwords are not the same!", 400⟩
  | _, _, _, _ => .error ⟨"Validation failed!", 400⟩

/-- Modelled from the spec: `user.save()` after a password mutation (user model
not under src/) validates that the confirmation matches the new password,
hashes the new password, updates `passwordChangedAt`, and persists. -/
def saveWithNewPassword (hash : String → String) (db : Store) (now : Nat)
    (u : User) (newPassword confirmation : Option String) :
    Except AppError (Store × User) :=
  match newPassword, confirmation with
  | some p, some c =>
    if c = p then
      let saved := { u with password := some (hash p),
                            passwordChangedAt := some now }
      .ok (storeUpdate db saved, saved)
    else .error ⟨"Passwords are not the same!", 400⟩
  | _, _ => .error ⟨"Validation failed!", 400⟩

/-- `signup` (authController lines 36-47): create a user from exactly the four
body fields `name`, `email`, `password`, `confirmPassword`, then
`createSendToken(newUser, 201, res)`. -/
def signup (hash : String → String) (uid : Nat) (now cookieDays : Nat)
    (body : AuthBody) : Except AppError SendTokenOut :=
  (userCreate hash uid body.name body.email body.password body.confirmPassword).map
    (fun newUser => createSendToken newUser 201 now cookieDays)

/-- `login` (authController lines 49-64): require truthy email and password,
look the user up by email with the password field included, compare the
submitted password; missing user and wrong password share one generic 401. -/
def login (hash : String → String) (db : Store) (now cookieDays : Nat)
    (body : AuthBody) : Except AppError SendTokenOut :=
  match truthyStr body.email, truthyStr body.password with
  | some email, some password =>
    match findByEmailWithPassword db email with
    | none => .error ⟨"Incorrect email or password!", 401⟩
    | some user =>
      if correctPassword hash password user.password then
        .ok (createSendToken user 200 now cookieDays)
      else .error ⟨"Incorrect email or password!", 401⟩
  | _, _ => .error ⟨"Please provide email and password!", 400⟩

/-- `getCurrentUser` (authController lines 66-73): respond 200 with the user
attached to the request by `protect`, serialized as-is. -/
def getCurrentUser (reqUser : User) : UserResponse :=
  ⟨200, "success", reqUser⟩

/-- The client-visible session state `logout` acts on: the `jwt` cookie the
browser currently holds, if any. -/
structure ClientState where
  jwtCookie : Option (CookieValue × Nat)
  deriving Repr, DecidableEq

/-- `logout` (authController lines 75-84): overwrite the `jwt` cookie with the
sentinel `"loggedout"` expiring in 10 seconds and respond 200, reading nothing
from the prior state. -/
def logout (now : Nat) (_s : ClientState) : ClientState × OkResponse :=
  (⟨some (CookieValue.raw "loggedout", now + 10 * 1000)⟩, ⟨200, "success"⟩)

/-- The client state after `n` sequential `logout` calls. -/
def logoutIter (now : Nat) : Nat → ClientState → ClientState
  | 0, s => s
  | n + 1, s => logoutIter now n (logout now s).1

/-- The request fields `protect` reads: the Authorization header and the `jwt`
cookie. -/
structure ProtectRequest where
  authorization : Option String
  cookieJwt : Option String
  deriving Repr, DecidableEq

/-- Token extraction in `protect` (lines 87-97): a header starting with
`Bearer` yields `split(" ")[1]` (and the cookie is then not consulted);
otherwise a truthy `jwt` cookie is used. -/
def extractToken (req : ProtectRequest) : Option String :=
  match req.authorization with
  | some h =>
    if h.startsWith "Bearer" then (h.splitOn " ").get? 1
    else truthyStr req.cookieJwt
  | none => truthyStr req.cookieJwt

/-- Modelled from the spec: `changedPasswordAfter` of the user model (not under
src/) reports whether "`passwordChangedAt` exists and is later than the token's
issued-at time". -/
def changedPasswordAfter (u : User) (iat : Nat) : Bool :=
  match u.passwordChangedAt with
  | some t => iat < t
  | none => false

/-- Modelled from the spec: `catchAsync` and the global error handler (neither
under src/) turn a `jwt.verify` rejection thrown inside `protect` into one
generic `NotAuthenticatedError` (401) that "does not distinguish reasons to the
caller beyond a generic message". -/
def handledVerifyError : AppError :=
  ⟨"Invalid token. Please log in again!", 401⟩

/-- `protect` (authController lines 86-128): extract a token, verify it,
resolve the user, check token freshness against the last password change, and
attach the user; every failure short-circuits with a 401 `AppError`. -/
def protect (verify : String → Except JwtError Token) (db : Store)
    (req : ProtectRequest) : Except AppError User :=
  match truthyStr (extractToken req) with
  | none => .error ⟨"You are not logged in! Please log in to your account.", 401⟩
  | some token =>
    match verify token with
    | .error _ => .error handledVerifyError
    | .ok decoded =>
      match findById db decoded.id with
      | none => .error ⟨"The user belonging to this token no longer exists!", 401⟩
      | some freshUser =>
        if changedPasswordAfter freshUser decoded.iat then
          .error ⟨"User recently changed his password! Please log in again.", 401⟩
        else .ok freshUser

/-- The observable behaviour of one middleware gate: the error it passed to
`next(err)`, if any, and whether it continued the pipeline. -/
structure MiddlewareStep where
  forwardedError : Option AppError
  proceeded : Bool
  deriving Repr, DecidableEq

/-- `restrictTo(...roles)` (authController lines 130-137), embedded faithfully:
when the request user's role is not in `roles` the source constructs
`new AppError(..., 403)` but never passes it to `next`, and then calls `next()`
unconditionally, so no error is forwarded and the pipeline always proceeds. -/
def restrictTo (roles : List String) (reqUserRole : String) : MiddlewareStep :=
  let _discardedError : Option AppError :=
    if roles.contains reqUserRole then none
    else some ⟨"You do not have persmission to perform this action!", 403⟩
  { forwardedError := none, proceeded := true }

/-- `forgotPassword` (authController lines 139-180): find the user by email
(404 if absent), generate a reset secret (`raw` is the fresh random secret,
`sha` the one-way digest; generation and its persistence are modelled from the
spec since the user model is not under src/), then attempt the email send.
On failure, clear both reset fields, persist, and return the 500 error. -/
def forgotPassword (sha : String → String) (raw : String) (db : Store)
    (now : Nat) (emailOk : Bool) (body : AuthBody) :
    Store × Except AppError OkResponse :=
  match (match body.email with
         | some e => findByEmail db e
         | none => none) with
  | none => (db, .error ⟨"There is no user with this email address!", 404⟩)
  | some user =>
    let withTok := { user with
      passwordResetToken := some (sha raw),
      passwordResetExpires := some (now + 10 * 60 * 1000) }
    let db1 := storeUpdate db withTok
    if emailOk then
      (db1, .ok ⟨200, "Token sent to email!"⟩)
    else
      let cleared := { withTok with
        passwordResetToken := none, passwordResetExpires := none }
      (storeUpdate db1 cleared,
       .error ⟨"There was an error sending the email. Try again later!", 500⟩)

/-- `resetPassword` (authController lines 182-209): hash the URL token, find a
user whose stored reset token matches and whose expiry is in the future (400
otherwise), set the new password and its confirmation from `password` and
`confirmPassword`, clear both reset fields, save, and send a fresh token. -/
def resetPassword (hash sha : String → String) (db : Store)
    (now cookieDays : Nat) (paramToken : String) (body : AuthBody) :
    Except AppError (Store × SendTokenOut) :=
  let hashedToken := sha paramToken
  match findByResetToken db hashedToken now with
  | none => .error ⟨"Token is invalid or has expired!", 400⟩
  | some user =>
    let cleared := { user with
      passwordResetToken := none, passwordResetExpires := none }
    (saveWithNewPassword hash db now cleared body.password body.confirmPassword).map
      (fun r => (r.1, createSendToken r.2 201 now cookieDays))

/-- `updatePassword` (authController lines 211-231): fetch the request user
with the password hash, check the posted current password (401 on mismatch),
then set the new password and its confirmation from `password` and
`passwordConfirm`, stamp `passwordChangedAt`, save, and send a fresh token. -/
def updatePassword (hash : String → String) (db : Store)
    (now cookieDays : Nat) (reqUserId : Nat) (body : AuthBody) :
    Except AppError (Store × SendTokenOut) :=
  match findByIdWithPassword db reqUserId with
  | none => .error ⟨"Internal server error", 500⟩
  | some user =>
    match body.passwordCurrent with
    | none => .error ⟨"Internal server error", 500⟩
    | some current =>
      if correctPassword hash current user.password then
        (saveWithNewPassword hash db now user body.password body.passwordConfirm).map
          (fun r => (r.1, createSendToken r.2 201 now cookieDays))
      else .error ⟨"Your current password is wrong!", 401⟩

/-! ## Helper lemmas -/

/-- `createSendToken` always strips the password before serialization. -/
lemma createSendToken_password_none (u : User) (c n d : Nat) :
    (createSendToken u c n d).user.password = none := rfl

/-- A user returned by a default read carries no password hash. -/
lemma findById_password_none (db : Store) (i : Nat) (v : User)
    (h : findById db i = some v) : v.password = none := by
  unfold findById at h
  cases hf : db.users.find? (fun u => u.id == i) with
  | none => rw [hf] at h; simp at h
  | some w =>
    rw [hf] at h
    simp only [Option.map_some'] at h
    cases h
    rfl

/-- After one `logout`, further `logout` calls do not change the client
state. -/
lemma logoutIter_succ (now : Nat) : ∀ n s,
    logoutIter now (n + 1) s = (logout now s).1
  | 0, _ => rfl
  | n + 1, s => by
    show logoutIter now (n + 1) (logout now s).1 = _
    rw [logoutIter_succ now n (logout now s).1]
    rfl

/-- When no stored user holds the hashed reset token, the lookup misses. -/
lemma findByResetToken_eq_none (db : Store) (hsh : String) (n : Nat)
    (hno : ∀ v ∈ db.users, v.passwordResetToken ≠ some hsh) :
    findByResetToken db hsh n = none := by
  unfold findByResetToken
  rw [List.find?_eq_none.mpr]
  · rfl
  · intro v hv hpred
    unfold resetTokenPred at hpred
    exact hno v hv (of_decide_eq_true ((Bool.and_eq_true _ _).mp hpred).1)

/-- When no stored user holds the hashed reset token, `resetPassword` fails
with the 400 invalid-or-expired error. -/
lemma resetPassword_error_of_no_holder (hash sha : String → String)
    (db : Store) (now cd : Nat) (raw : String) (body : AuthBody)
    (hno : ∀ v ∈ db.users, v.passwordResetToken ≠ some (sha raw)) :
    resetPassword hash sha db now cd raw body =
      .error ⟨"Token is invalid or has expired!", 400⟩ := by
  unfold resetPassword
  dsimp only
  rw [findByResetToken_eq_none db (sha raw) now hno]

/-- A successful reset-token lookup exhibits a stored holder of the token. -/
lemma findByResetToken_some_elim (db : Store) (hsh : String) (n : Nat)
    (v : User) (h : findByResetToken db hsh n = some v) :
    ∃ w, w ∈ db.users ∧ v = stripPassword w ∧
      w.passwordResetToken = some hsh := by
  unfold findByResetToken at h
  cases hf : db.users.find? (resetTokenPred hsh n) with
  | none => rw [hf] at h; simp at h
  | some w =>
    rw [hf] at h
    simp only [Option.map_some'] at h
    injection h with h2
    have hpred := List.find?_some hf
    unfold resetTokenPred at hpred
    exact ⟨w, List.mem_of_find?_eq_some hf, h2.symm,
      of_decide_eq_true ((Bool.and_eq_true _ _).mp hpred).1⟩

/-- Every document of an updated store is either the saved document (sharing
its id, reset fields and change stamp) or an untouched document with a
different id. -/
lemma mem_storeUpdate_cases (db : Store) (u v : User)
    (hv : v ∈ (storeUpdate db u).users) :
    (v.id = u.id ∧ v.passwordResetToken = u.passwordResetToken ∧
     v.passwordResetExpires = u.passwordResetExpires) ∨
    (v ∈ db.users ∧ v.id ≠ u.id) := by
  unfold storeUpdate at hv
  simp only [List.mem_map] at hv
  obtain ⟨w, hw, hfw⟩ := hv
  by_cases hid : w.id = u.id
  · left
    rw [if_pos (beq_iff_eq.mpr hid)] at hfw
    subst hfw
    exact ⟨rfl, rfl, rfl⟩
  · right
    rw [if_neg (by simpa using hid)] at hfw
    subst hfw
    exact ⟨hw, hid⟩

/-! ## Claim theorems -/

/-- Claim C1: the spec requires `restrictTo` to short-circuit with a 403
`ForbiddenError` whenever the attached user's role is not in the allowed set.
The source constructs the error object but never passes it to `next`: with
allowed roles `["admin"]` and user role `"user"` the gate forwards no error and
proceeds to the next handler, so the claimed short-circuit does not happen. -/
theorem restrictTo_never_short_circuits :
    restrictTo ["admin"] "user" = ⟨none, true⟩ ∧
    (["admin"] : List String).contains "user" = false :=
  ⟨rfl, rfl⟩

/-- Claim C8: `logout` is idempotent: any number `n + 1` of sequential calls
leaves the client in the same state as a single call, and every call responds
200 with status `success` and overwrites the `jwt` cookie with the sentinel
`"loggedout"` expiring 10 seconds later, regardless of the prior state. -/
theorem logout_idempotent (now n : Nat) (s : ClientState) :
    logoutIter now (n + 1) s = logoutIter now 1 s ∧
    (logout now s).2 = ⟨200, "success"⟩ ∧
    (logout now s).1 = ⟨some (CookieValue.raw "loggedout", now + 10 * 1000)⟩ :=
  ⟨by rw [logoutIter_succ now n s, logoutIter_succ now 0 s], rfl, rfl⟩

/-- Claim C9: `signup` builds the created user from exactly the four body
fields `name`, `email`, `password`, `confirmPassword`: two bodies agreeing on
those four fields produce identical results, and every successfully created
user has the default role `user`, so a supplied `role` field cannot produce a
non-default role. -/
theorem signup_uses_only_four_fields (hash : String → String)
    (uid now cookieDays : Nat) :
    (∀ b₁ b₂ : AuthBody, b₁.name = b₂.name → b₁.email = b₂.email →
       b₁.password = b₂.password → b₁.confirmPassword = b₂.confirmPassword →
       signup hash uid now cookieDays b₁ = signup hash uid now cookieDays b₂) ∧
    (∀ b out, signup hash uid now cookieDays b = .ok out →
       out.user.role = "user") := by
  constructor
  · intro b₁ b₂ h1 h2 h3 h4
    unfold signup
    rw [h1, h2, h3, h4]
  · intro b out h
    unfold signup userCreate at h
    split at h
    · split at h
      · simp only [Except.map] at h
        cases h
        rfl
      · simp [Except.map] at h
    · simp [Except.map] at h

/-- A sample password hash used in concrete witnesses. -/
def hashW : String → String := fun s => "#" ++ s

/-- A signup body carrying a forged `role` field. -/
def bodyRoleW : AuthBody :=
  ⟨some "Ada", some "ada@x.com", some "pw123", some "pw123", none, none,
   some "admin"⟩

/-- The same signup body with no `role` field. -/
def bodyPlainW : AuthBody :=
  ⟨some "Ada", some "ada@x.com", some "pw123", some "pw123", none, none, none⟩

/-- Witness for C9 at a concrete signup body: a forged `role` field changes
nothing, and the created user's role is the default. -/
theorem signup_uses_only_four_fields_witness :
    signup hashW 1 0 0 bodyRoleW = signup hashW 1 0 0 bodyPlainW ∧
    ∃ out, signup hashW 1 0 0 bodyRoleW = .ok out ∧ out.user.role = "user" :=
  ⟨(signup_uses_only_four_fields hashW 1 0 0).1 bodyRoleW bodyPlainW
     rfl rfl rfl rfl,
   ⟨_, rfl, (signup_uses_only_four_fields hashW 1 0 0).2 bodyRoleW _ rfl⟩⟩

/-- Claim C10: the confirmation field name differs between flows: `signup` and
`resetPassword` read `confirmPassword` (so they ignore `passwordConfirm`),
`updatePassword` reads `passwordConfirm` (so it ignores `confirmPassword`), and
an `updatePassword` request supplying `confirmPassword` but no
`passwordConfirm` reaches the save step with an undefined confirmation, which
fails validation. -/
theorem confirmation_field_name_differs (hash sha : String → String)
    (db : Store) (now cookieDays uid : Nat) :
    (∀ b c, updatePassword hash db now cookieDays uid
        { b with confirmPassword := c } =
        updatePassword hash db now cookieDays uid b) ∧
    (∀ uid2 b c, signup hash uid2 now cookieDays
        { b with passwordConfirm := c } =
        signup hash uid2 now cookieDays b) ∧
    (∀ pt b c, resetPassword hash sha db now cookieDays pt
        { b with passwordConfirm := c } =
        resetPassword hash sha db now cookieDays pt b) ∧
    (∀ b u current p, b.passwordCurrent = some current →
       b.passwordConfirm = none → b.password = some p →
       findByIdWithPassword db uid = some u →
       correctPassword hash current u.password = true →
       updatePassword hash db now cookieDays uid b =
         .error ⟨"Validation failed!", 400⟩) := by
  refine ⟨fun b c => by cases b; rfl, fun uid2 b c => by cases b; rfl,
          fun pt b c => by cases b; rfl, fun b u current p hc hn hp hf hok => ?_⟩
  unfold updatePassword
  simp only [hf, hc, hok, if_true]
  unfold saveWithNewPassword
  simp only [hp, hn]
  rfl

/-- A stored user for concrete witnesses; the stored hash matches the raw
password `"old"` under `hashW`. -/
def userW : User :=
  ⟨7, "Ada", "ada@x.com", "user", some (hashW "old"), none, none, none⟩

/-- A one-user credential store for concrete witnesses. -/
def dbW : Store := ⟨[userW]⟩

/-- An `updatePassword` body that supplies `confirmPassword` instead of the
expected `passwordConfirm`. -/
def bodyWrongFieldW : AuthBody :=
  ⟨none, none, some "newpw", some "newpw", none, some "old", none⟩

/-- Witness for C10: at a concrete store and body, `updatePassword` ignores
`confirmPassword` and fails validation with an undefined confirmation. -/
theorem confirmation_field_name_differs_witness :
    updatePassword hashW dbW 0 0 7 { bodyWrongFieldW with confirmPassword := none } =
      updatePassword hashW dbW 0 0 7 bodyWrongFieldW ∧
    updatePassword hashW dbW 0 0 7 bodyWrongFieldW =
      .error ⟨"Validation failed!", 400⟩ :=
  ⟨(confirmation_field_name_differs hashW hashW dbW 0 0 7).1 bodyWrongFieldW none,
   (confirmation_field_name_differs hashW hashW dbW 0 0 7).2.2.2 bodyWrongFieldW
     userW "old" "newpw" rfl rfl rfl rfl (by decide)⟩

/-- Claim C4: `login` does not reveal which credential check failed: a body
with an existing email but wrong password and a body with a non-existent email
both produce exactly `.error ⟨"Incorrect email or password!", 401⟩`, hence
identical responses. -/
theorem login_no_enumeration_signal (hash : String → String) (db : Store)
    (now cookieDays : Nat) (b₁ b₂ : AuthBody) (e₁ p₁ e₂ p₂ : String) (u : User)
    (h1e : truthyStr b₁.email = some e₁)
    (h1p : truthyStr b₁.password = some p₁)
    (h2e : truthyStr b₂.email = some e₂)
    (h2p : truthyStr b₂.password = some p₂)
    (hu : findByEmailWithPassword db e₁ = some u)
    (hw : correctPassword hash p₁ u.password = false)
    (hn : findByEmailWithPassword db e₂ = none) :
    login hash db now cookieDays b₁ = .error ⟨"Incorrect email or password!", 401⟩ ∧
    login hash db now cookieDays b₁ = login hash db now cookieDays b₂ := by
  unfold login
  rw [h1e, h1p, h2e, h2p]
  simp only [hu, hn, hw]
  exact ⟨rfl, rfl⟩

/-- A login body with the right email but the wrong password. -/
def bodyWrongPwW : AuthBody :=
  ⟨none, some "ada@x.com", some "wrong", none, none, none, none⟩

/-- A login body with an email no stored user has. -/
def bodyNoUserW : AuthBody :=
  ⟨none, some "ghost@x.com", some "whatever", none, none, none, none⟩

/-- Witness for C4 at a concrete store: wrong password and unknown email give
the same 401 response. -/
theorem login_no_enumeration_signal_witness :
    login hashW dbW 0 0 bodyWrongPwW =
      .error ⟨"Incorrect email or password!", 401⟩ ∧
    login hashW dbW 0 0 bodyWrongPwW = login hashW dbW 0 0 bodyNoUserW :=
  login_no_enumeration_signal hashW dbW 0 0 bodyWrongPwW bodyNoUserW
    "ada@x.com" "wrong" "ghost@x.com" "whatever" userW
    rfl rfl rfl rfl rfl (by decide) rfl

/-- Claim C2: in `protect`, a token whose issued-at time is earlier than the
user's `passwordChangedAt` is rejected with the 401 stale-session error, and a
token issued after the most recent password change, otherwise valid, is
accepted with the resolved user attached. -/
theorem protect_password_change_freshness
    (verify : String → Except JwtError Token) (db : Store)
    (req : ProtectRequest) (s : String) (tok : Token) (u : User) (t : Nat)
    (hx : truthyStr (extractToken req) = some s)
    (hv : verify s = .ok tok)
    (hf : findById db tok.id = some u)
    (ht : u.passwordChangedAt = some t) :
    (tok.iat < t → protect verify db req =
       .error ⟨"User recently changed his password! Please log in again.", 401⟩) ∧
    (t < tok.iat → protect verify db req = .ok u) := by
  unfold protect
  simp only [hx, hv, hf]
  unfold changedPasswordAfter
  rw [ht]
  constructor
  · intro h
    simp [h]
  · intro h
    have hnot : ¬ (tok.iat < t) := by omega
    simp [hnot]

/-- A stored user whose password changed at time 10. -/
def userChangedW : User :=
  ⟨7, "Ada", "ada@x.com", "user", some (hashW "old"), some 10, none, none⟩

/-- A one-user store whose user changed their password at time 10. -/
def dbChangedW : Store := ⟨[userChangedW]⟩

/-- A request carrying the token string `"abc"` in the `jwt` cookie. -/
def reqBearerW : ProtectRequest := ⟨none, some "abc"⟩

/-- A verifier accepting `"abc"` as a token issued at time 5 (before the
password change at 10). -/
def verifyStaleW : String → Except JwtError Token :=
  fun _ => .ok ⟨7, 5⟩

/-- A verifier accepting `"abc"` as a token issued at time 20 (after the
password change at 10). -/
def verifyFreshW : String → Except JwtError Token :=
  fun _ => .ok ⟨7, 20⟩

/-- Witness for C2 at a concrete store and request: the stale token is
rejected 401, the fresh token is accepted. -/
theorem protect_password_change_freshness_witness :
    protect verifyStaleW dbChangedW reqBearerW =
      .error ⟨"User recently changed his password! Please log in again.", 401⟩ ∧
    protect verifyFreshW dbChangedW reqBearerW =
      .ok (stripPassword userChangedW) :=
  ⟨(protect_password_change_freshness verifyStaleW dbChangedW reqBearerW
      "abc" ⟨7, 5⟩ (stripPassword userChangedW) 10 rfl rfl rfl rfl).1
      (by decide),
   (protect_password_change_freshness verifyFreshW dbChangedW reqBearerW
      "abc" ⟨7, 20⟩ (stripPassword userChangedW) 10 rfl rfl rfl rfl).2
      (by decide)⟩

/-- Claim C7: whenever token verification rejects the extracted token, for any
reason (malformed, bad signature, expired), `protect` returns the one generic
handled 401 error rather than crashing, and the outcome is independent of the
failure reason, the store, and the rest of the request. -/
theorem protect_verify_failure_uniform (v₁ v₂ : String → Except JwtError Token)
    (db₁ db₂ : Store) (req₁ req₂ : ProtectRequest) (s₁ s₂ : String)
    (e₁ e₂ : JwtError)
    (hx₁ : truthyStr (extractToken req₁) = some s₁)
    (hx₂ : truthyStr (extractToken req₂) = some s₂)
    (hv₁ : v₁ s₁ = .error e₁) (hv₂ : v₂ s₂ = .error e₂) :
    protect v₁ db₁ req₁ = .error handledVerifyError ∧
    handledVerifyError.statusCode = 401 ∧
    protect v₁ db₁ req₁ = protect v₂ db₂ req₂ := by
  unfold protect
  simp only [hx₁, hx₂, hv₁, hv₂]
  exact ⟨trivial, rfl, trivial⟩

/-- A verifier rejecting every token as malformed. -/
def verifyMalformedW : String → Except JwtError Token :=
  fun _ => .error .malformed

/-- A verifier rejecting every token as expired. -/
def verifyExpiredW : String → Except JwtError Token :=
  fun _ => .error .expired

/-- Witness for C7 at concrete requests: a malformed token and an expired
token produce the identical generic 401. -/
theorem protect_verify_failure_uniform_witness :
    protect verifyMalformedW dbW reqBearerW = .error handledVerifyError ∧
    handledVerifyError.statusCode = 401 ∧
    protect verifyMalformedW dbW reqBearerW =
      protect verifyExpiredW dbChangedW ⟨none, some "xyz"⟩ :=
  protect_verify_failure_uniform verifyMalformedW verifyExpiredW dbW dbChangedW
    reqBearerW ⟨none, some "xyz"⟩ "abc" "xyz" .malformed .expired
    rfl rfl rfl rfl

/-- Claim C3: no flow that returns a user serializes the hashed password:
`signup`, `login`, `resetPassword` and `updatePassword` strip it in
`createSendToken`, and `getCurrentUser` serializes the user attached by
`protect`, which was loaded without the password field. -/
theorem password_absent_from_responses (hash sha : String → String) :
    (∀ uid now cd body out, signup hash uid now cd body = .ok out →
       out.user.password = none) ∧
    (∀ db now cd body out, login hash db now cd body = .ok out →
       out.user.password = none) ∧
    (∀ db now cd pt body r, resetPassword hash sha db now cd pt body = .ok r →
       r.2.user.password = none) ∧
    (∀ db now cd uid body r, updatePassword hash db now cd uid body = .ok r →
       r.2.user.password = none) ∧
    (∀ verify db req u, protect verify db req = .ok u →
       (getCurrentUser u).user.password = none) := by
  refine ⟨?_, ?_, ?_, ?_, ?_⟩
  · intro uid now cd body out h
    unfold signup at h
    cases hc : userCreate hash uid body.name body.email body.password
        body.confirmPassword with
    | error e => rw [hc] at h; simp [Except.map] at h
    | ok u =>
      rw [hc] at h
      simp only [Except.map] at h
      cases h
      rfl
  · intro db now cd body out h
    unfold login at h
    split at h
    · split at h
      · simp at h
      · split at h
        · cases h
          rfl
        · simp at h
    · simp at h
  · intro db now cd pt body r h
    unfold resetPassword at h
    dsimp only at h
    split at h
    · simp at h
    · cases hs : saveWithNewPassword hash db now _ body.password
          body.confirmPassword with
      | error e => rw [hs] at h; simp [Except.map] at h
      | ok s =>
        rw [hs] at h
        simp only [Except.map] at h
        cases h
        rfl
  · intro db now cd uid body r h
    unfold updatePassword at h
    split at h
    · simp at h
    · split at h
      · simp at h
      · split at h
        · cases hs : saveWithNewPassword hash db now _ body.password
              body.passwordConfirm with
          | error e => rw [hs] at h; simp [Except.map] at h
          | ok s =>
            rw [hs] at h
            simp only [Except.map] at h
            cases h
            rfl
        · simp at h
  · intro verify db req u h
    unfold protect at h
    split at h
    · simp at h
    · split at h
      · simp at h
      · split at h
        · simp at h
        · split at h
          · simp at h
          · cases h
            next hfind _ =>
              exact findById_password_none db _ u hfind

/-- A valid signup body for the C3 witness. -/
def bodySignupW : AuthBody :=
  ⟨some "Eva", some "eva@x.com", some "pw456", some "pw456", none, none, none⟩

/-- Witness for C3: a concrete successful signup whose response user carries
no password. -/
theorem password_absent_from_responses_witness :
    ∃ out, signup hashW 2 0 0 bodySignupW = .ok out ∧
      out.user.password = none :=
  ⟨_, rfl,
   (password_absent_from_responses hashW hashW).1 2 0 0 bodySignupW _ rfl⟩

/-- Claim C5: a successfully consumed reset token is single-use. When the
stored hashed token is held by at most one user, a successful `resetPassword`
clears both `passwordResetToken` and `passwordResetExpires` on the saved user,
and every subsequent `resetPassword` with the same raw token against the
updated store fails with the 400 invalid-or-expired error, even before the
original expiry. -/
theorem resetPassword_single_use (hash sha : String → String) (db : Store)
    (now cookieDays : Nat) (raw : String) (body : AuthBody)
    (r : Store × SendTokenOut)
    (huniq : ∀ v ∈ db.users, v.passwordResetToken = some (sha raw) →
             ∀ w ∈ db.users, w.passwordResetToken = some (sha raw) → v = w)
    (h : resetPassword hash sha db now cookieDays raw body = .ok r) :
    r.2.user.passwordResetToken = none ∧
    r.2.user.passwordResetExpires = none ∧
    (∀ now₂ cd₂ body₂, resetPassword hash sha r.1 now₂ cd₂ raw body₂ =
       .error ⟨"Token is invalid or has expired!", 400⟩) := by
  unfold resetPassword at h
  dsimp only at h
  cases hfind : findByResetToken db (sha raw) now with
  | none => rw [hfind] at h; simp at h
  | some user =>
    rw [hfind] at h
    obtain ⟨u₀, hmem₀, huser, htok₀⟩ :=
      findByResetToken_some_elim db (sha raw) now user hfind
    unfold saveWithNewPassword at h
    cases hp : body.password with
    | none => simp [hp, Except.map] at h
    | some p =>
      cases hc : body.confirmPassword with
      | none => simp [hp, hc, Except.map] at h
      | some c =>
        simp only [hp, hc] at h
        by_cases hcp : c = p
        · rw [if_pos hcp] at h
          simp only [Except.map] at h
          injection h with h2
          subst h2
          subst huser
          refine ⟨rfl, rfl, ?_⟩
          intro now₂ cd₂ body₂
          apply resetPassword_error_of_no_holder
          intro v hv hvtok
          rcases mem_storeUpdate_cases _ _ v hv with
            ⟨hid, htok, hexp⟩ | ⟨hvmem, hvid⟩
          · rw [htok] at hvtok
            exact Option.noConfusion hvtok
          · have hvu : v = u₀ := huniq v hvmem hvtok u₀ hmem₀ htok₀
            exact hvid (by rw [hvu]; rfl)
        · rw [if_neg hcp] at h
          simp [Except.map] at h

/-- A stored user holding the hashed reset token for the raw secret
`"rawtok"`, expiring at time 100. -/
def userResetW : User :=
  ⟨9, "Eva", "eva@x.com", "user", some (hashW "old"), none,
   some (hashW "rawtok"), some 100⟩

/-- A one-user store holding a live reset token. -/
def dbResetW : Store := ⟨[userResetW]⟩

/-- A reset body with matching password and confirmation. -/
def bodyResetW : AuthBody :=
  ⟨none, none, some "newpw", some "newpw", none, none, none⟩

/-- Witness for C5: a concrete reset consumes the token, the saved user's
reset fields are cleared, and replaying the same raw token fails 400 before
the original expiry. -/
theorem resetPassword_single_use_witness :
    ∃ r, resetPassword hashW hashW dbResetW 50 0 "rawtok" bodyResetW = .ok r ∧
      r.2.user.passwordResetToken = none ∧
      resetPassword hashW hashW r.1 60 0 "rawtok" bodyResetW =
        .error ⟨"Token is invalid or has expired!", 400⟩ :=
  ⟨_, rfl,
   (resetPassword_single_use hashW hashW dbResetW 50 0 "rawtok" bodyResetW _
     (by decide) rfl).1,
   (resetPassword_single_use hashW hashW dbResetW 50 0 "rawtok" bodyResetW _
     (by decide) rfl).2.2 60 0 bodyResetW⟩

/-- Claim C6: when the email send fails, `forgotPassword` clears the user's
`passwordResetToken` and `passwordResetExpires` and persists them before
returning the 500 error, so the reset token written during this request cannot
later be consumed by `resetPassword`. -/
theorem forgotPassword_failure_rollback (hash sha : String → String)
    (raw : String) (db : Store) (now : Nat) (body : AuthBody)
    (e : String) (user : User)
    (he : body.email = some e)
    (hu : findByEmail db e = some user)
    (hfresh : ∀ v ∈ db.users, v.passwordResetToken ≠ some (sha raw)) :
    (forgotPassword sha raw db now false body).2 =
      .error ⟨"There was an error sending the email. Try again later!", 500⟩ ∧
    (∀ v ∈ (forgotPassword sha raw db now false body).1.users,
       v.id = user.id →
       v.passwordResetToken = none ∧ v.passwordResetExpires = none) ∧
    (∀ now₂ cd₂ body₂, resetPassword hash sha
        (forgotPassword sha raw db now false body).1 now₂ cd₂ raw body₂ =
      .error ⟨"Token is invalid or has expired!", 400⟩) := by
  have hfp : forgotPassword sha raw db now false body =
      (storeUpdate (storeUpdate db
         { user with passwordResetToken := some (sha raw),
                     passwordResetExpires := some (now + 10 * 60 * 1000) })
         { user with passwordResetToken := none,
                     passwordResetExpires := none },
       .error ⟨"There was an error sending the email. Try again later!", 500⟩) := by
    unfold forgotPassword
    simp only [he, hu]
    rfl
  rw [hfp]
  refine ⟨rfl, ?_, ?_⟩
  · intro v hv hvid
    rcases mem_storeUpdate_cases _ _ v hv with ⟨hid, htok, hexp⟩ | ⟨hvmem, hvid2⟩
    · exact ⟨htok, hexp⟩
    · exact absurd (hvid.trans rfl) hvid2
  · intro now₂ cd₂ body₂
    apply resetPassword_error_of_no_holder
    intro v hv hvtok
    rcases mem_storeUpdate_cases _ _ v hv with ⟨hid, htok, hexp⟩ | ⟨hvmem, hvid2⟩
    · rw [htok] at hvtok
      exact Option.noConfusion hvtok
    · rcases mem_storeUpdate_cases _ _ v hvmem with
        ⟨hid1, htok1, hexp1⟩ | ⟨hvmem1, hvid1⟩
      · exact hvid2 (hid1.trans rfl)
      · exact hfresh v hvmem1 hvtok

/-- A forgot-password body carrying the stored user's email. -/
def bodyEmailW : AuthBody :=
  ⟨none, some "ada@x.com", none, none, none, none, none⟩

/-- Witness for C6: at a concrete store, a failed send responds 500 and the
freshly written reset token is rejected by a later `resetPassword`. -/
theorem forgotPassword_failure_rollback_witness :
    (forgotPassword hashW "tok" dbW 0 false bodyEmailW).2 =
      .error ⟨"There was an error sending the email. Try again later!", 500⟩ ∧
    resetPassword hashW hashW (forgotPassword hashW "tok" dbW 0 false bodyEmailW).1
      5 0 "tok" bodyResetW = .error ⟨"Token is invalid or has expired!", 400⟩ :=
  ⟨(forgotPassword_failure_rollback hashW hashW "tok" dbW 0 bodyEmailW
      "ada@x.com" (stripPassword userW) rfl rfl (by decide)).1,
   (forgotPassword_failure_rollback hashW hashW "tok" dbW 0 bodyEmailW
      "ada@x.com" (stripPassword userW) rfl rfl (by decide)).2.2 5 0 bodyResetW⟩

end Wildway
